import Mathlib

/-!
Shallow embedding of the order-fulfillment and payment-reconciliation core of
the 2squrebacked e-commerce backend, together with theorems settling the
frozen claims about it.

Sources embedded:
- `src/services/order.service.ts` (`createOrderSchema`, `createOrderFromCart`)
- `src/services/coupon.service.ts` (`getByCode`, `validateCoupon`, `applyCoupon`)
- `src/services/payment.service.ts` (`createPaymentIntent`, `confirmPayment`)

Modelling conventions:
- currency amounts (Postgres `numeric`, read with `parseFloat`) are `ℚ`;
- integer columns are `ℤ`; timestamps are abstract `ℤ` instants;
- a SQL `UPDATE ... WHERE` is a `List.map` guarded by the `WHERE` predicate,
  `SELECT ... WHERE` with a unique key is `List.find?`, `DELETE` is `filter`;
- a thrown JS `Error` is `Except.error`; for `createOrderFromCart` the error
  also carries the database state as of the throw, so that the atomicity
  claims ("nothing changed on failure") are statements, not conventions;
- `created_at`/`updated_at` columns are modelled only where a claim
  mentions them (on payments); order-row timestamps are elided.
-/

namespace TwoSquare

/-- A row of `products`: id, name, price, stock, active flag
(`src/database` schema; the columns `createOrderFromCart` selects). -/
structure Product where
  pid : String
  name : String
  price : ℚ
  stock_quantity : ℤ
  is_active : Bool
  deriving DecidableEq, Repr

/-- A row of `cart`: unique (user_id, product_id) with a quantity. -/
structure CartItem where
  user_id : String
  product_id : String
  quantity : ℤ
  deriving DecidableEq, Repr

/-- A row of `orders`, as inserted by `createOrderFromCart`
(timestamps elided; `oid` models the generated primary key). -/
structure OrderRow where
  oid : Nat
  user_id : String
  total_amount : ℚ
  status : String
  payment_status : String
  payment_method : String
  deriving DecidableEq, Repr

/-- A row of `order_items`. -/
structure OrderItemRow where
  order_id : Nat
  product_id : String
  quantity : ℤ
  price : ℚ
  deriving DecidableEq, Repr

/-- A row of `coupons` (`coupon.service.ts` `Coupon` interface).
Nullable columns are `Option`; JS truthiness tests on them are modelled
exactly (`null` and `0` are both falsy). -/
structure CouponRow where
  code : String
  discount_type : String
  discount_value : ℚ
  min_purchase_amount : ℚ
  max_discount_amount : Option ℚ
  usage_limit : Option ℤ
  used_count : ℤ
  valid_from : ℤ
  valid_until : ℤ
  is_active : Bool
  deriving DecidableEq, Repr

/-- A row of `payments` (`payment.service.ts` `Payment` interface;
`updated_at` is kept because reconciliation claims mention it). -/
structure PaymentRow where
  pid : Nat
  order_id : Nat
  amount : ℚ
  currency : String
  payment_method : String
  payment_intent_id : Option String
  status : String
  transaction_id : Option String
  updated_at : ℤ
  deriving DecidableEq, Repr

/-- The store state read and written by `createOrderFromCart`. -/
structure DB where
  products : List Product
  cart : List CartItem
  orders : List OrderRow
  order_items : List OrderItemRow
  coupons : List CouponRow
  nextOrderId : Nat
  deriving DecidableEq, Repr

/-- The field names of `createOrderSchema`
(`order.service.ts` lines 4-23: the zod object accepted by POST /orders). -/
def createOrderSchemaKeys : List String :=
  ["userId", "shippingAddress", "billingAddress", "paymentMethod"]

/-- The cart query of `createOrderFromCart`:
`SELECT c.*, p.price, p.stock_quantity, p.name FROM cart c JOIN products p
ON c.product_id = p.id WHERE c.user_id = $1`. Rows without a matching
product are dropped by the inner join; product ids are unique keys. -/
def cartQuery (db : DB) (userId : String) : List (CartItem × Product) :=
  (db.cart.filter (fun c => c.user_id == userId)).filterMap (fun c =>
    (db.products.find? (fun p => p.pid == c.product_id)).map (fun p => (c, p)))

/-- One entry of the local `orderItems` array built by the validation loop. -/
structure ItemSpec where
  product_id : String
  quantity : ℤ
  price : ℚ
  deriving DecidableEq, Repr

/-- The validation/pricing loop of `createOrderFromCart` (lines 71-87):
walk the joined cart rows, throwing `Insufficient stock for <name>` at the
first row with `stock_quantity < quantity`, otherwise accumulating
`totalAmount` and the `orderItems` array in order. -/
def buildItems : List (CartItem × Product) → ℚ → List ItemSpec →
    Except String (ℚ × List ItemSpec)
  | [], total, items => .ok (total, items)
  | cp :: rest, total, items =>
    if cp.2.stock_quantity < cp.1.quantity then
      .error ("Insufficient stock for " ++ cp.2.name)
    else
      buildItems rest (total + cp.2.price * (cp.1.quantity : ℚ))
        (items ++ [⟨cp.1.product_id, cp.1.quantity, cp.2.price⟩])

/-- `UPDATE products SET stock_quantity = stock_quantity - $1 WHERE id = $2`
(line 116): unconditional — no stock re-validation in the `WHERE` clause. -/
def decStock (ps : List Product) (pid : String) (qty : ℤ) : List Product :=
  ps.map (fun p =>
    if p.pid == pid then { p with stock_quantity := p.stock_quantity - qty } else p)

/-- The write phase of `createOrderFromCart` (lines 90-125): insert the
order row, then per item insert an order_items row and decrement stock,
then delete the user's cart rows; return the inserted order. -/
def commitOrder (db : DB) (userId paymentMethod : String) (total : ℚ)
    (items : List ItemSpec) : DB × OrderRow :=
  let order : OrderRow :=
    { oid := db.nextOrderId, user_id := userId, total_amount := total,
      status := "pending", payment_status := "pending",
      payment_method := paymentMethod }
  let db1 := { db with orders := db.orders ++ [order],
                       nextOrderId := db.nextOrderId + 1 }
  let db2 := items.foldl (fun d it =>
    { d with
      order_items := d.order_items ++
        [⟨order.oid, it.product_id, it.quantity, it.price⟩],
      products := decStock d.products it.product_id it.quantity }) db1
  ({ db2 with cart := db2.cart.filter (fun c => !(c.user_id == userId)) }, order)

/-- `createOrderFromCart` (order.service.ts lines 54-126). All validation
precedes every write, so an error carries the untouched input state. -/
def createOrderFromCart (db : DB) (userId paymentMethod : String) :
    Except (String × DB) (DB × OrderRow) :=
  let rows := cartQuery db userId
  if rows.isEmpty then .error ("Cart is empty", db)
  else
    match buildItems rows 0 [] with
    | .error e => .error (e, db)
    | .ok (total, items) => .ok (commitOrder db userId paymentMethod total items)

/-- The undiscounted subtotal of a user's joined cart:
Σ (point-in-time product price × quantity). -/
def subtotalOf (db : DB) (userId : String) : ℚ :=
  ((cartQuery db userId).map (fun cp => cp.2.price * (cp.1.quantity : ℚ))).sum

/-! ## Coupon Evaluator (`coupon.service.ts`) -/

/-- The result record of `validateCoupon`:
`{ valid: boolean; discount: number; message?: string }`. -/
structure CouponCheck where
  valid : Bool
  discount : ℚ
  message : Option String
  deriving DecidableEq, Repr

/-- JS `String.prototype.toUpperCase()` restricted to the ASCII range, as
a character-wise map (coupon codes are ASCII). -/
def strToUpper (s : String) : String := ⟨s.data.map Char.toUpper⟩

/-- `getByCode` (lines 76-82): `SELECT * FROM coupons WHERE code = $1 AND
is_active = true` for the upper-cased code. -/
def getByCode (coupons : List CouponRow) (code : String) : Option CouponRow :=
  coupons.find? (fun c => c.code == strToUpper code && c.is_active)

/-- The body of `validateCoupon` after the coupon row has been fetched
(lines 91-114). JS truthiness of `usage_limit` and `max_discount_amount`
(null and 0 both falsy) is modelled exactly; the `toString` in the
minimum-purchase message abstracts JS number formatting. -/
def validateCouponFound (coupon : CouponRow) (orderAmount : ℚ) (now : ℤ) :
    CouponCheck :=
  if coupon.valid_from > now ∨ coupon.valid_until < now then
    ⟨false, 0, some "Coupon has expired"⟩
  else if (match coupon.usage_limit with
           | some l => l != 0 && coupon.used_count ≥ l
           | none => false : Bool) then
    ⟨false, 0, some "Coupon usage limit reached"⟩
  else if orderAmount < coupon.min_purchase_amount then
    ⟨false, 0, some ("Minimum purchase amount is $" ++ toString coupon.min_purchase_amount)⟩
  else
    let discount : ℚ :=
      if coupon.discount_type == "percentage" then
        let d := orderAmount * coupon.discount_value / 100
        match coupon.max_discount_amount with
        | some m => if m ≠ 0 ∧ d > m then m else d
        | none => d
      else coupon.discount_value
    ⟨true, discount, none⟩

/-- `validateCoupon` (lines 84-115): fetch by code, reject unknown/inactive
codes, otherwise evaluate the rules. -/
def validateCoupon (coupons : List CouponRow) (code : String) (orderAmount : ℚ)
    (now : ℤ) : CouponCheck :=
  match getByCode coupons code with
  | none => ⟨false, 0, some "Invalid coupon code"⟩
  | some coupon => validateCouponFound coupon orderAmount now

/-- `applyCoupon` (lines 117-123): `UPDATE coupons SET used_count =
used_count + 1 WHERE code = $1 RETURNING *` — unconditional, with no
usage_limit re-check. Returns the updated table and the returned row. -/
def applyCoupon (coupons : List CouponRow) (code : String) :
    List CouponRow × Option CouponRow :=
  let updated := coupons.map (fun c =>
    if c.code == strToUpper code then { c with used_count := c.used_count + 1 } else c)
  (updated, updated.find? (fun c => c.code == strToUpper code))

/-! ## Payment Orchestrator / Reconciliation Handler (`payment.service.ts`) -/

/-- The store state read and written by the payment service. -/
structure PayDB where
  orders : List OrderRow
  payments : List PaymentRow
  nextPaymentId : Nat
  deriving DecidableEq, Repr

/-- `Math.round` as used on `amount * 100`: round half away from zero
upward, i.e. ⌊x + 1/2⌋. -/
def jsRound (x : ℚ) : ℤ := Int.floor (x + 1/2)

/-- `createPaymentIntent` (payment.service.ts lines 32-70): verify the
order exists, reject if already paid, create a processor charge of
`Math.round(amount * 100)` cents for the caller-supplied amount, and
insert a pending payments row carrying that amount. `intentId` is the
processor-assigned reference; `now` the insertion timestamp. The
caller-supplied `amount` is never compared with the order's
`total_amount`. Returns the new state, the payment row, and the cents
amount sent to the processor. -/
def createPaymentIntent (db : PayDB) (orderId : Nat) (amount : ℚ)
    (currency paymentMethod intentId : String) (now : ℤ) :
    Except String (PayDB × PaymentRow × ℤ) :=
  match db.orders.find? (fun o => o.oid == orderId) with
  | none => .error "Order not found"
  | some order =>
    if order.payment_status == "paid" then .error "Order is already paid"
    else
      let chargeCents : ℤ := jsRound (amount * 100)
      let payment : PaymentRow :=
        { pid := db.nextPaymentId, order_id := orderId, amount := amount,
          currency := currency, payment_method := paymentMethod,
          payment_intent_id := some intentId, status := "pending",
          transaction_id := none, updated_at := now }
      .ok ({ db with payments := db.payments ++ [payment],
                     nextPaymentId := db.nextPaymentId + 1 },
           payment, chargeCents)

/-- The row rewrite of the payments UPDATE in `confirmPayment` (lines
78-88): set status from the processor status (`succeeded` iff the
processor says `succeeded`, `failed` for anything else), record the
transaction id, bump `updated_at` to CURRENT_TIMESTAMP. -/
def confirmedRow (p : PaymentRow) (intentId procStatus : String) (now : ℤ) :
    PaymentRow :=
  { p with status := if procStatus == "succeeded" then "succeeded" else "failed",
           transaction_id := some intentId, updated_at := now }

/-- `confirmPayment` (payment.service.ts lines 73-110). `procStatus` is the
status the processor reports for `intentId`; `now` is CURRENT_TIMESTAMP.
The payments UPDATE rewrites every row matching the intent id via
`confirmedRow`; the order is marked `paid` when the processor says
`succeeded`, marked `failed` only when the processor says literally
`payment_failed`, and left untouched otherwise. -/
def confirmPayment (db : PayDB) (intentId : String) (procStatus : String)
    (now : ℤ) : Except String (PayDB × PaymentRow) :=
  let updated := db.payments.map (fun p =>
    if p.payment_intent_id == some intentId then
      confirmedRow p intentId procStatus now
    else p)
  match updated.find? (fun p => p.payment_intent_id == some intentId) with
  | none => .error "Payment record not found"
  | some payment =>
    let db1 := { db with payments := updated }
    let db2 :=
      if procStatus == "succeeded" then
        { db1 with orders := db1.orders.map (fun o =>
            if o.oid == payment.order_id then { o with payment_status := "paid" }
            else o) }
      else if procStatus == "payment_failed" then
        { db1 with orders := db1.orders.map (fun o =>
            if o.oid == payment.order_id then { o with payment_status := "failed" }
            else o) }
      else db1
    .ok (db2, payment)

/-! ## The racy concurrent schedule for order creation

`createOrderFromCart` runs no transaction: its SELECT and its stock
UPDATEs are separate statements. Under concurrency two requests can both
run their cart SELECT (and the in-memory stock check) before either
executes a stock UPDATE. `racyParallel` is that schedule: both requests
validate against the same snapshot, then both commit in sequence. Each
per-statement step below is exactly the corresponding piece of
`createOrderFromCart`. -/

/-- Interleaving of two `createOrderFromCart` calls in which both cart
reads precede both write phases. -/
def racyParallel (db : DB) (u1 u2 paymentMethod : String) :
    Except String (DB × OrderRow × OrderRow) :=
  match buildItems (cartQuery db u1) 0 [], buildItems (cartQuery db u2) 0 [] with
  | .ok (t1, i1), .ok (t2, i2) =>
    let r1 := commitOrder db u1 paymentMethod t1 i1
    let r2 := commitOrder r1.1 u2 paymentMethod t2 i2
    .ok (r2.1, r1.2, r2.2)
  | .error e, _ => .error e
  | _, .error e => .error e

/-! ## Concrete states used by counterexamples and witnesses -/

/-- An inactive product with plenty of stock. -/
def prodInactive : Product :=
  { pid := "A", name := "Gadget", price := 10, stock_quantity := 5, is_active := false }

/-- A cart line of user `u` asking one unit of the inactive product. -/
def cartInactive : CartItem := { user_id := "u", product_id := "A", quantity := 1 }

/-- State for the inactive-product check: one inactive product, one cart line. -/
def dbInactive : DB :=
  { products := [prodInactive], cart := [cartInactive], orders := [],
    order_items := [], coupons := [], nextOrderId := 0 }

/-- The spec scenario product: A, price 10.00, stock 5, active. -/
def prodA : Product :=
  { pid := "A", name := "Widget", price := 10, stock_quantity := 5, is_active := true }

/-- The spec scenario state: cart = [{product A, qty 2}], stock(A)=5. -/
def dbScenario : DB :=
  { products := [prodA], cart := [{ user_id := "u", product_id := "A", quantity := 2 }],
    orders := [], order_items := [], coupons := [], nextOrderId := 0 }

/-- A one-unit-left product for insufficient-stock runs. -/
def prodScarce : Product :=
  { pid := "B", name := "Rarity", price := 4, stock_quantity := 1, is_active := true }

/-- State whose single cart line asks two units of a one-unit product. -/
def dbScarce : DB :=
  { products := [prodScarce], cart := [{ user_id := "u", product_id := "B", quantity := 2 }],
    orders := [], order_items := [], coupons := [], nextOrderId := 0 }

/-- The no-oversell scenario product: stock S = 1. -/
def prodP : Product :=
  { pid := "P", name := "P", price := 5, stock_quantity := 1, is_active := true }

/-- The no-oversell scenario: two users, each with a cart line asking 1 unit
of the stock-1 product. -/
def racyDB : DB :=
  { products := [prodP],
    cart := [{ user_id := "u1", product_id := "P", quantity := 1 },
             { user_id := "u2", product_id := "P", quantity := 1 }],
    orders := [], order_items := [], coupons := [], nextOrderId := 0 }

/-- The first racy order (user u1). -/
def racyOrder1 : OrderRow :=
  { oid := 0, user_id := "u1", total_amount := 5, status := "pending",
    payment_status := "pending", payment_method := "card" }

/-- The second racy order (user u2) — created although stock was 1. -/
def racyOrder2 : OrderRow :=
  { oid := 1, user_id := "u2", total_amount := 5, status := "pending",
    payment_status := "pending", payment_method := "card" }

/-- The state after the interleaved schedule: stock(P) = −1, two orders. -/
def racyFinalDB : DB :=
  { products := [{ pid := "P", name := "P", price := 5, stock_quantity := -1,
                   is_active := true }],
    cart := [], orders := [racyOrder1, racyOrder2],
    order_items := [{ order_id := 0, product_id := "P", quantity := 1, price := 5 },
                    { order_id := 1, product_id := "P", quantity := 1, price := 5 }],
    coupons := [], nextOrderId := 2 }

/-- The state after u1's call alone: stock(P) = 0, u2's cart line intact. -/
def racyAfterFirst : DB :=
  { products := [{ pid := "P", name := "P", price := 5, stock_quantity := 0,
                   is_active := true }],
    cart := [{ user_id := "u2", product_id := "P", quantity := 1 }],
    orders := [racyOrder1],
    order_items := [{ order_id := 0, product_id := "P", quantity := 1, price := 5 }],
    coupons := [], nextOrderId := 1 }

/-- A pending order awaiting payment. -/
def pendingOrder : OrderRow :=
  { oid := 1, user_id := "u", total_amount := 100, status := "pending",
    payment_status := "pending", payment_method := "card" }

/-- A pending payment row for `pendingOrder` with processor reference `pi_1`. -/
def pendingPayment : PaymentRow :=
  { pid := 1, order_id := 1, amount := 100, currency := "usd",
    payment_method := "card", payment_intent_id := some "pi_1",
    status := "pending", transaction_id := none, updated_at := 0 }

/-- Payment-service state: one pending order, one pending payment. -/
def payDB : PayDB :=
  { orders := [pendingOrder], payments := [pendingPayment], nextPaymentId := 2 }

/-- `pendingPayment` after a `canceled` confirmation at time 5. -/
def canceledPayment : PaymentRow :=
  { pendingPayment with
    status := "failed", transaction_id := some "pi_1", updated_at := 5 }

/-- State after confirming `pi_1` with processor status `canceled`: the
payment is failed but the order is untouched. -/
def payDBCanceled : PayDB :=
  { orders := [pendingOrder], payments := [canceledPayment], nextPaymentId := 2 }

/-- `pendingPayment` after the first `succeeded` confirmation, at time 1. -/
def paidPayment1 : PaymentRow :=
  { pendingPayment with
    status := "succeeded", transaction_id := some "pi_1", updated_at := 1 }

/-- `paidPayment1` rewritten again by the second confirmation, at time 2. -/
def paidPayment2 : PaymentRow :=
  { paidPayment1 with updated_at := 2 }

/-- `pendingOrder` marked paid. -/
def paidOrder : OrderRow :=
  { pendingOrder with payment_status := "paid" }

/-- State after the first `succeeded` confirmation. -/
def payDBAfter1 : PayDB :=
  { orders := [paidOrder], payments := [paidPayment1], nextPaymentId := 2 }

/-- State after the second `succeeded` confirmation. -/
def payDBAfter2 : PayDB :=
  { orders := [paidOrder], payments := [paidPayment2], nextPaymentId := 2 }

/-- A percentage coupon: 10% off, min purchase 15, cap 15, limit 5, window [0,100]. -/
def couponPct : CouponRow :=
  { code := "SAVE10", discount_type := "percentage", discount_value := 10,
    min_purchase_amount := 15, max_discount_amount := some 15,
    usage_limit := some 5, used_count := 0, valid_from := 0, valid_until := 100,
    is_active := true }

/-- A fixed coupon worth 50, no minimum, no cap, no limit, window [0,100]. -/
def couponFixed : CouponRow :=
  { code := "BIGOFF", discount_type := "fixed", discount_value := 50,
    min_purchase_amount := 0, max_discount_amount := none,
    usage_limit := none, used_count := 0, valid_from := 0, valid_until := 100,
    is_active := true }

/-- A coupon already at its usage limit: usage_limit 1, used_count 1. -/
def couponAtLimit : CouponRow :=
  { code := "SAVE", discount_type := "fixed", discount_value := 5,
    min_purchase_amount := 0, max_discount_amount := none,
    usage_limit := some 1, used_count := 1, valid_from := 0, valid_until := 100,
    is_active := true }

/-- The per-item write step of `commitOrder`, named for the fold lemmas:
insert an order_items row, run the unconditional stock decrement. -/
def orderItemInsert (oid : Nat) (d : DB) (it : ItemSpec) : DB :=
  { d with
    order_items := d.order_items ++ [⟨oid, it.product_id, it.quantity, it.price⟩],
    products := decStock d.products it.product_id it.quantity }

/-- The order-row INSERT of `commitOrder`, named for the lemmas. -/
def insertOrderRow (db : DB) (u pm : String) (total : ℚ) : DB :=
  { db with
    orders := db.orders ++
      [{ oid := db.nextOrderId, user_id := u, total_amount := total,
         status := "pending", payment_status := "pending", payment_method := pm }],
    nextOrderId := db.nextOrderId + 1 }

/-! ## Concrete run results (checked by `decide`/`rfl` in the theorems) -/

/-- The order created from `dbInactive` — created although the product is
inactive. -/
def orderInactive : OrderRow :=
  { oid := 0, user_id := "u", total_amount := 10, status := "pending",
    payment_status := "pending", payment_method := "card" }

/-- The state after the (unchecked) inactive-product order. -/
def dbInactiveAfter : DB :=
  { products := [{ pid := "A", name := "Gadget", price := 10, stock_quantity := 4,
                   is_active := false }],
    cart := [], orders := [orderInactive],
    order_items := [{ order_id := 0, product_id := "A", quantity := 1, price := 10 }],
    coupons := [], nextOrderId := 1 }

/-- The order of the spec scenario: total_amount 20.00. -/
def orderScenario : OrderRow :=
  { oid := 0, user_id := "u", total_amount := 20, status := "pending",
    payment_status := "pending", payment_method := "card" }

/-- The state after the spec scenario: stock(A)=3, cart empty,
OrderItem{A,2,10.00}. -/
def dbScenarioAfter : DB :=
  { products := [{ pid := "A", name := "Widget", price := 10, stock_quantity := 3,
                   is_active := true }],
    cart := [], orders := [orderScenario],
    order_items := [{ order_id := 0, product_id := "A", quantity := 2, price := 10 }],
    coupons := [], nextOrderId := 1 }

/-! ## Generic lemmas about keyed SQL-style updates -/

/-- A keyed `UPDATE ... WHERE key` commutes with `find?` on the same key:
the found row is the updated row, provided the update preserves the key. -/
lemma find_update_key {α : Type} (l : List α) (key : α → Bool) (f : α → α)
    (hpres : ∀ a, key (f a) = key a) :
    (l.map (fun a => if key a then f a else a)).find? key = (l.find? key).map f := by
  induction l with
  | nil => rfl
  | cons a l ih =>
    by_cases hk : key a
    · simp [List.find?, hk, hpres]
    · simp only [Bool.not_eq_true] at hk
      simp [List.find?, hk, ih]

/-- A keyed `UPDATE ... WHERE key` leaves `find?` on a disjoint key
unchanged, provided the update preserves the query key. -/
lemma find_update_other {α : Type} (l : List α) (q key : α → Bool) (f : α → α)
    (hpres : ∀ a, q (f a) = q a) (hdisj : ∀ a, q a = true → key a = false) :
    (l.map (fun a => if key a then f a else a)).find? q = l.find? q := by
  induction l with
  | nil => rfl
  | cons a l ih =>
    by_cases hq : q a
    · have hk := hdisj a hq
      simp [List.find?, hq, hk]
    · simp only [Bool.not_eq_true] at hq
      by_cases hk : key a <;> simp [List.find?, hq, hk, hpres, ih]

/-! ## Lemmas about the validation loop `buildItems` -/

/-- If some joined cart row has insufficient stock, the loop throws
`Insufficient stock for <name>` for one such row (the first failing one),
whatever has been accumulated so far. -/
lemma buildItems_error_of_insufficient (rows : List (CartItem × Product)) :
    ∀ t its, (∃ cp ∈ rows, cp.2.stock_quantity < cp.1.quantity) →
    ∃ nm, buildItems rows t its = .error ("Insufficient stock for " ++ nm)
      ∧ ∃ cp ∈ rows, cp.2.name = nm ∧ cp.2.stock_quantity < cp.1.quantity := by
  induction rows with
  | nil => rintro t its ⟨cp, h, -⟩; exact absurd h (List.not_mem_nil cp)
  | cons cp rest ih =>
    rintro t its ⟨cq, hmem, hlt⟩
    by_cases hhd : cp.2.stock_quantity < cp.1.quantity
    · exact ⟨cp.2.name, by simp [buildItems, hhd],
        cp, List.mem_cons_self cp rest, rfl, hhd⟩
    · rcases List.mem_cons.mp hmem with rfl | htl
      · exact absurd hlt hhd
      · obtain ⟨nm, heq, cq', hmem', hnm, hlt'⟩ :=
          ih (t + cp.2.price * (cp.1.quantity : ℚ))
            (its ++ [⟨cp.1.product_id, cp.1.quantity, cp.2.price⟩]) ⟨cq, htl, hlt⟩
        exact ⟨nm, by simp [buildItems, hhd, heq],
          cq', List.mem_cons_of_mem cp hmem', hnm, hlt'⟩

/-- When the loop completes, the total is the accumulated start plus
Σ (price × quantity), and the order-items array is the accumulated start
followed by one entry per joined cart row carrying its point-in-time price. -/
lemma buildItems_ok (rows : List (CartItem × Product)) :
    ∀ t its total out, buildItems rows t its = .ok (total, out) →
    total = t + (rows.map (fun cp => cp.2.price * (cp.1.quantity : ℚ))).sum
    ∧ out = its ++ rows.map
        (fun cp => (⟨cp.1.product_id, cp.1.quantity, cp.2.price⟩ : ItemSpec)) := by
  induction rows with
  | nil =>
    intro t its total out h
    simp only [buildItems, Except.ok.injEq, Prod.mk.injEq] at h
    simp [← h.1, ← h.2]
  | cons cp rest ih =>
    intro t its total out h
    by_cases hhd : cp.2.stock_quantity < cp.1.quantity
    · simp [buildItems, hhd] at h
    · simp only [buildItems, hhd, if_false] at h
      obtain ⟨h1, h2⟩ := ih _ _ _ _ h
      constructor
      · rw [h1]; simp; ring
      · rw [h2]; simp

/-! ## Lemmas about the write phase `commitOrder` -/

/-- `commitOrder` written with the named step functions. -/
lemma commitOrder_eq (db : DB) (u pm : String) (total : ℚ) (items : List ItemSpec) :
    commitOrder db u pm total items =
      (let db2 := items.foldl (orderItemInsert db.nextOrderId)
        (insertOrderRow db u pm total)
      ({ db2 with cart := db2.cart.filter (fun c => !(c.user_id == u)) },
       { oid := db.nextOrderId, user_id := u, total_amount := total,
         status := "pending", payment_status := "pending", payment_method := pm })) := by
  rfl

/-- What the item-writing fold does to each store component: orders, cart
and coupons untouched; one order_items row appended per item; products
rewritten by the per-item stock decrements. -/
lemma foldl_orderItemInsert (oid : Nat) (items : List ItemSpec) :
    ∀ d : DB, (items.foldl (orderItemInsert oid) d).orders = d.orders
    ∧ (items.foldl (orderItemInsert oid) d).cart = d.cart
    ∧ (items.foldl (orderItemInsert oid) d).coupons = d.coupons
    ∧ (items.foldl (orderItemInsert oid) d).order_items = d.order_items ++
        items.map (fun it => (⟨oid, it.product_id, it.quantity, it.price⟩ : OrderItemRow))
    ∧ (items.foldl (orderItemInsert oid) d).products =
        items.foldl (fun ps it => decStock ps it.product_id it.quantity) d.products := by
  induction items with
  | nil => intro d; simp
  | cons it rest ih =>
    intro d
    obtain ⟨h1, h2, h3, h4, h5⟩ := ih (orderItemInsert oid d it)
    refine ⟨by simpa [orderItemInsert] using h1, by simpa [orderItemInsert] using h2,
      by simpa [orderItemInsert] using h3, ?_, ?_⟩
    · rw [List.foldl_cons, h4]; simp [orderItemInsert]
    · rw [List.foldl_cons, h5]; rfl

/-! ## Lemmas about the stock-decrement fold -/

/-- `find?` at the decremented product id sees the decremented row. -/
lemma find_decStock_self (ps : List Product) (pid : String) (q : ℤ) :
    (decStock ps pid q).find? (fun p => p.pid == pid) =
      (ps.find? (fun p => p.pid == pid)).map
        (fun p => { p with stock_quantity := p.stock_quantity - q }) :=
  find_update_key ps (fun p => p.pid == pid)
    (fun p => { p with stock_quantity := p.stock_quantity - q }) (fun _ => rfl)

/-- `find?` at any other product id is unaffected by a decrement. -/
lemma find_decStock_other (ps : List Product) (pid j : String) (q : ℤ)
    (hne : j ≠ pid) :
    (decStock ps pid q).find? (fun p => p.pid == j) =
      ps.find? (fun p => p.pid == j) :=
  find_update_other ps (fun p => p.pid == j) (fun p => p.pid == pid)
    (fun p => { p with stock_quantity := p.stock_quantity - q }) (fun _ => rfl)
    (by
      intro a ha
      have haj : a.pid = j := by simpa using ha
      simp only [haj, beq_eq_false_iff_ne, ne_eq]
      exact hne)

/-- Rows whose product id is hit by none of the decrements are unchanged. -/
lemma find_foldl_decStock_not_mem (j : String) (items : List ItemSpec) :
    ∀ ps : List Product, (∀ it ∈ items, it.product_id ≠ j) →
    (items.foldl (fun ps it => decStock ps it.product_id it.quantity) ps).find?
        (fun p => p.pid == j) =
      ps.find? (fun p => p.pid == j) := by
  induction items with
  | nil => intro ps _; rfl
  | cons it rest ih =>
    intro ps h
    rw [List.foldl_cons, ih _ (fun x hx => h x (List.mem_cons_of_mem it hx)),
      find_decStock_other ps _ _ _
        (fun hc => h it (List.mem_cons_self it rest) hc.symm)]

/-- If an item's product id occurs exactly once among the decremented ids
(nodup), the fold decrements the found row by exactly that item's quantity. -/
lemma find_foldl_decStock_mem (items : List ItemSpec) :
    ∀ (ps : List Product) (it : ItemSpec), it ∈ items →
    (items.map (fun x => x.product_id)).Nodup →
    (items.foldl (fun ps x => decStock ps x.product_id x.quantity) ps).find?
        (fun p => p.pid == it.product_id) =
      (ps.find? (fun p => p.pid == it.product_id)).map
        (fun p => { p with stock_quantity := p.stock_quantity - it.quantity }) := by
  induction items with
  | nil => intro ps it h; exact absurd h (List.not_mem_nil it)
  | cons x rest ih =>
    intro ps it hmem hnodup
    rw [List.map_cons, List.nodup_cons] at hnodup
    obtain ⟨hx, hrest⟩ := hnodup
    rcases List.mem_cons.mp hmem with rfl | htl
    · rw [List.foldl_cons,
        find_foldl_decStock_not_mem _ _ _
          (by
            intro y hy hpid
            exact hx (hpid ▸ List.mem_map_of_mem (fun z => z.product_id) hy)),
        find_decStock_self]
    · have hne : it.product_id ≠ x.product_id := by
        intro heq
        exact hx (heq ▸ List.mem_map_of_mem (fun z => z.product_id) htl)
      rw [List.foldl_cons, ih _ it htl hrest, find_decStock_other ps _ _ _ hne]

/-! ## Characterizing `createOrderFromCart` -/

/-- A successful call is the validation loop (on the untouched state)
followed by the write phase. -/
lemma createOrder_ok_elim (db : DB) (u pm : String) (db' : DB) (order : OrderRow)
    (h : createOrderFromCart db u pm = .ok (db', order)) :
    ∃ total items, buildItems (cartQuery db u) 0 [] = .ok (total, items)
      ∧ commitOrder db u pm total items = (db', order) := by
  simp only [createOrderFromCart] at h
  split at h
  · exact absurd h (by simp)
  · split at h
    · exact absurd h (by simp)
    · next total items heq =>
      exact ⟨total, items, heq, by simpa using h⟩

/-- Membership in the cart query: the cart row belongs to the user and the
paired product is the one `find?` returns for its product id. -/
lemma mem_cartQuery (db : DB) (u : String) (cp : CartItem × Product)
    (h : cp ∈ cartQuery db u) :
    cp.1 ∈ db.cart ∧ cp.1.user_id = u
    ∧ db.products.find? (fun p => p.pid == cp.1.product_id) = some cp.2 := by
  unfold cartQuery at h
  obtain ⟨c, hc, hmap⟩ := List.mem_filterMap.mp h
  obtain ⟨p, hp, heq⟩ := Option.map_eq_some'.mp hmap
  obtain ⟨hcmem, hcu⟩ := List.mem_filter.mp hc
  obtain ⟨c', p'⟩ := cp
  obtain ⟨rfl, rfl⟩ := Prod.mk.injEq .. ▸ heq
  exact ⟨hcmem, by simpa using hcu, hp⟩

/-- Everything a successful `createOrderFromCart` does to the store, in
terms of the input state: the inserted order row (whose total is the
undiscounted subtotal), the appended order_items rows with their
point-in-time prices, coupons untouched, the user's cart rows deleted, and
products rewritten by the per-line stock decrements. -/
lemma createOrder_components (db : DB) (u pm : String) (db' : DB) (order : OrderRow)
    (h : createOrderFromCart db u pm = .ok (db', order)) :
    order = { oid := db.nextOrderId, user_id := u, total_amount := subtotalOf db u,
              status := "pending", payment_status := "pending", payment_method := pm }
    ∧ db'.orders = db.orders ++ [order]
    ∧ db'.order_items = db.order_items ++ (cartQuery db u).map
        (fun cp => (⟨order.oid, cp.1.product_id, cp.1.quantity, cp.2.price⟩ : OrderItemRow))
    ∧ db'.coupons = db.coupons
    ∧ db'.cart = db.cart.filter (fun c => !(c.user_id == u))
    ∧ db'.products = ((cartQuery db u).map
          (fun cp => (⟨cp.1.product_id, cp.1.quantity, cp.2.price⟩ : ItemSpec))).foldl
        (fun ps it => decStock ps it.product_id it.quantity) db.products := by
  obtain ⟨total, items, hb, hc⟩ := createOrder_ok_elim db u pm db' order h
  obtain ⟨ht, hi⟩ := buildItems_ok _ _ _ _ _ hb
  rw [commitOrder_eq] at hc
  obtain ⟨ho1, ho2, ho3, ho4, ho5⟩ :=
    foldl_orderItemInsert db.nextOrderId items (insertOrderRow db u pm total)
  simp only at hc
  obtain ⟨hdb, horder⟩ := Prod.ext_iff.mp hc
  simp only at hdb horder
  have htot : total = subtotalOf db u := by simpa [subtotalOf] using ht
  have horder' : order =
      { oid := db.nextOrderId, user_id := u, total_amount := subtotalOf db u,
        status := "pending", payment_status := "pending", payment_method := pm } := by
    rw [← horder, htot]
  have hOrders : db'.orders =
      (List.foldl (orderItemInsert db.nextOrderId) (insertOrderRow db u pm total)
        items).orders := by
    rw [← hdb]
  have hItems : db'.order_items =
      (List.foldl (orderItemInsert db.nextOrderId) (insertOrderRow db u pm total)
        items).order_items := by
    rw [← hdb]
  have hCoupons : db'.coupons =
      (List.foldl (orderItemInsert db.nextOrderId) (insertOrderRow db u pm total)
        items).coupons := by
    rw [← hdb]
  have hCart : db'.cart = List.filter (fun c => !(c.user_id == u))
      (List.foldl (orderItemInsert db.nextOrderId) (insertOrderRow db u pm total)
        items).cart := by
    rw [← hdb]
  have hProds : db'.products =
      (List.foldl (orderItemInsert db.nextOrderId) (insertOrderRow db u pm total)
        items).products := by
    rw [← hdb]
  refine ⟨horder', ?_, ?_, ?_, ?_, ?_⟩
  · rw [hOrders, ho1]; simp only [insertOrderRow]; rw [horder]
  · rw [hItems, ho4, hi]
    simp [insertOrderRow, horder', List.map_map, Function.comp]
  · rw [hCoupons, ho3]; simp [insertOrderRow]
  · rw [hCart, ho2]; simp [insertOrderRow]
  · rw [hProds, ho5, hi]; simp [insertOrderRow]

/-- Deleting a user's cart rows empties that user's cart. -/
lemma filter_user_after_delete (l : List CartItem) (u : String) :
    ((l.filter (fun c => !(c.user_id == u))).filter (fun c => c.user_id == u)) = [] := by
  induction l with
  | nil => rfl
  | cons c l ih =>
    by_cases hc : c.user_id == u <;> simp [hc, ih]

/-! ## Claim C1 -/

/-- C1, counterexample: the claim says a cart line whose product is
inactive makes `createOrderFromCart` fail. In `dbInactive` the single cart
line's product is inactive (with ample stock), yet the call succeeds and
creates the order. -/
theorem claim1_cex_inactive_product_order_succeeds :
    prodInactive.is_active = false
    ∧ cartQuery dbInactive "u" = [(cartInactive, prodInactive)]
    ∧ cartInactive.quantity ≤ prodInactive.stock_quantity
    ∧ createOrderFromCart dbInactive "u" "card" = .ok (dbInactiveAfter, orderInactive) := by
  refine ⟨rfl, by decide, by decide, ?_⟩
  norm_num [createOrderFromCart, cartQuery, dbInactive, cartInactive, prodInactive,
    buildItems, commitOrder, decStock, dbInactiveAfter, orderInactive]
  all_goals simp

/-- C1 (amended): if some line of the user's joined cart has
`stock_quantity <` requested quantity, `createOrderFromCart` throws
`Insufficient stock for <name>` naming such an offending product, and the
state carried by the error is the input state unchanged — no stock, cart,
coupon or order/order_items mutation. Inactive products are not checked. -/
theorem claim1_insufficient_stock_aborts_unchanged (db : DB) (u pm : String)
    (h : ∃ cp ∈ cartQuery db u, cp.2.stock_quantity < cp.1.quantity) :
    ∃ nm, createOrderFromCart db u pm = .error ("Insufficient stock for " ++ nm, db)
      ∧ ∃ cp ∈ cartQuery db u, cp.2.name = nm ∧ cp.2.stock_quantity < cp.1.quantity := by
  obtain ⟨nm, heq, hwit⟩ := buildItems_error_of_insufficient (cartQuery db u) 0 [] h
  have hne : (cartQuery db u).isEmpty = false := by
    obtain ⟨cp, hcp, -⟩ := h
    cases hq : cartQuery db u with
    | nil => rw [hq] at hcp; exact absurd hcp (List.not_mem_nil cp)
    | cons a l => rfl
  exact ⟨nm, by simp only [createOrderFromCart, hne, Bool.false_eq_true,
    if_false, heq], hwit⟩

/-- C1 witness: a cart asking 2 units of a 1-unit product aborts with
`Insufficient stock for Rarity` and the untouched state. -/
theorem claim1_witness :
    (∃ cp ∈ cartQuery dbScarce "u", cp.2.stock_quantity < cp.1.quantity)
    ∧ ∃ nm, createOrderFromCart dbScarce "u" "card" =
        .error ("Insufficient stock for " ++ nm, dbScarce)
      ∧ ∃ cp ∈ cartQuery dbScarce "u",
          cp.2.name = nm ∧ cp.2.stock_quantity < cp.1.quantity :=
  ⟨⟨({ user_id := "u", product_id := "B", quantity := 2 }, prodScarce),
      by decide, by decide⟩,
    claim1_insufficient_stock_aborts_unchanged dbScarce "u" "card"
      ⟨({ user_id := "u", product_id := "B", quantity := 2 }, prodScarce),
        by decide, by decide⟩⟩

/-! ## Claim C2 -/

/-- C2: for every successful `createOrderFromCart` (with the cart's
product ids unique per the (user_id, product_id) uniqueness constraint):
the order's total_amount is Σ (price read at order-build time × quantity)
(no discount is ever applied), one order_items row per cart line is
appended carrying that same point-in-time unit price, every ordered
product's stock is decremented by exactly its ordered quantity, and the
user's cart is empty afterwards. -/
theorem claim2_create_order_conservation (db : DB) (u pm : String)
    (db' : DB) (order : OrderRow)
    (hnodup : ((cartQuery db u).map (fun cp => cp.1.product_id)).Nodup)
    (h : createOrderFromCart db u pm = .ok (db', order)) :
    order.total_amount = subtotalOf db u
    ∧ db'.order_items = db.order_items ++ (cartQuery db u).map
        (fun cp => (⟨order.oid, cp.1.product_id, cp.1.quantity, cp.2.price⟩ : OrderItemRow))
    ∧ (∀ cp ∈ cartQuery db u,
        db'.products.find? (fun p => p.pid == cp.1.product_id) =
          some { cp.2 with stock_quantity := cp.2.stock_quantity - cp.1.quantity })
    ∧ db'.cart.filter (fun c => c.user_id == u) = [] := by
  obtain ⟨horder, -, hitems, -, hcart, hprods⟩ :=
    createOrder_components db u pm db' order h
  refine ⟨by rw [horder], hitems, ?_, ?_⟩
  · intro cp hcp
    have hbase := (mem_cartQuery db u cp hcp).2.2
    have hmem' : (⟨cp.1.product_id, cp.1.quantity, cp.2.price⟩ : ItemSpec) ∈
        (cartQuery db u).map
          (fun cp => (⟨cp.1.product_id, cp.1.quantity, cp.2.price⟩ : ItemSpec)) :=
      List.mem_map_of_mem _ hcp
    have hnodup' : (((cartQuery db u).map
        (fun cp => (⟨cp.1.product_id, cp.1.quantity, cp.2.price⟩ : ItemSpec))).map
          (fun x => x.product_id)).Nodup := by
      rw [List.map_map]; exact hnodup
    have := find_foldl_decStock_mem _ db.products _ hmem' hnodup'
    rw [hprods, this, hbase, Option.map_some']
  · rw [hcart]; exact filter_user_after_delete db.cart u

/-- C2 witness: the spec scenario — cart [{A, price 10.00, qty 2}],
stock(A)=5 — yields total 20.00, OrderItem{A,2,10.00}, stock(A)=3 and an
empty cart. -/
theorem claim2_witness :
    ((cartQuery dbScenario "u").map (fun cp => cp.1.product_id)).Nodup
    ∧ (orderScenario.total_amount = subtotalOf dbScenario "u"
      ∧ dbScenarioAfter.order_items = dbScenario.order_items ++
          (cartQuery dbScenario "u").map
            (fun cp => (⟨orderScenario.oid, cp.1.product_id, cp.1.quantity,
              cp.2.price⟩ : OrderItemRow))
      ∧ (∀ cp ∈ cartQuery dbScenario "u",
          dbScenarioAfter.products.find? (fun p => p.pid == cp.1.product_id) =
            some { cp.2 with stock_quantity := cp.2.stock_quantity - cp.1.quantity })
      ∧ dbScenarioAfter.cart.filter (fun c => c.user_id == "u") = []) :=
  ⟨by decide,
    claim2_create_order_conservation dbScenario "u" "card" dbScenarioAfter
      orderScenario (by decide)
      (by
        norm_num [createOrderFromCart, cartQuery, dbScenario, prodA,
          buildItems, commitOrder, decStock, dbScenarioAfter, orderScenario]
        all_goals simp)⟩

/-! ## Claim C3 -/

/-- C3, counterexample: the claim says order creation accepts an optional
coupon code, but `createOrderSchema` has no `couponCode` field at all. -/
theorem claim3_cex_no_coupon_code_field :
    "couponCode" ∉ createOrderSchemaKeys := by
  decide

/-- C3 (amended): order creation accepts no coupon code — the input schema
fields are exactly userId/shippingAddress/billingAddress/paymentMethod — and
`createOrderFromCart` never applies a discount: every successful order's
total_amount equals the undiscounted subtotal. Coupon validation exists
only as the separate `validateCoupon` service, not in order creation. -/
theorem claim3_order_creation_ignores_coupons :
    createOrderSchemaKeys = ["userId", "shippingAddress", "billingAddress",
      "paymentMethod"]
    ∧ "couponCode" ∉ createOrderSchemaKeys
    ∧ ∀ (db : DB) (u pm : String) (db' : DB) (order : OrderRow),
        createOrderFromCart db u pm = .ok (db', order) →
        order.total_amount = subtotalOf db u := by
  refine ⟨rfl, by decide, ?_⟩
  intro db u pm db' order h
  have horder := (createOrder_components db u pm db' order h).1
  rw [horder]

/-- C3 witness: the scenario order's total is the plain subtotal
(20.00 = 10.00 × 2, no discount term). -/
theorem claim3_witness :
    orderScenario.total_amount = subtotalOf dbScenario "u" :=
  claim3_order_creation_ignores_coupons.2.2 dbScenario "u" "card"
    dbScenarioAfter orderScenario
    (by
      norm_num [createOrderFromCart, cartQuery, dbScenario, prodA,
        buildItems, commitOrder, decStock, dbScenarioAfter, orderScenario]
      all_goals simp)


/-! ## Claim C4 -/

/-- C4: the stock decrement of `createOrderFromCart` is an unconditional
`UPDATE ... SET stock_quantity = stock_quantity - $1 WHERE id = $2` with no
write-time stock re-validation and no transaction. Run serially, the
second order correctly fails; but under the interleaved schedule in which
both requests run their cart SELECT before either UPDATE, two orders for
the single unit of stock both succeed and stock(P) ends at −1 — the claim
says exactly S = 1 call succeeds and the other fails with insufficient
stock. -/
theorem claim4_race_both_succeed_oversell :
    prodP.stock_quantity = 1
    ∧ (∀ c ∈ racyDB.cart, c.quantity = 1)
    ∧ createOrderFromCart racyDB "u1" "card" = .ok (racyAfterFirst, racyOrder1)
    ∧ createOrderFromCart racyAfterFirst "u2" "card" =
        .error ("Insufficient stock for P", racyAfterFirst)
    ∧ racyParallel racyDB "u1" "u2" "card" = .ok (racyFinalDB, racyOrder1, racyOrder2)
    ∧ racyFinalDB.orders.length = 2
    ∧ racyFinalDB.products.find? (fun p => p.pid == "P") =
        some { prodP with stock_quantity := -1 } := by
  refine ⟨rfl, by decide, ?_, ?_, ?_, rfl, by decide⟩
  · norm_num [createOrderFromCart, cartQuery, racyDB, prodP, buildItems,
      commitOrder, decStock, racyAfterFirst, racyOrder1]
    all_goals simp
  · norm_num [createOrderFromCart, cartQuery, racyAfterFirst, buildItems,
      racyOrder1]
    all_goals simp
  · norm_num [racyParallel, cartQuery, racyDB, prodP, buildItems,
      commitOrder, decStock, racyFinalDB, racyOrder1, racyOrder2]


/-! ## Characterizing `confirmPayment` -/

/-- A successful `confirmPayment`, in closed form: given the row the
payments UPDATE matches, the call returns the rewritten row together with
the state holding the rewritten payments table and the order table chosen
by the processor status (`paid` for `succeeded`, `failed` only for the
literal `payment_failed`, untouched otherwise). -/
lemma confirmPayment_eq (db : PayDB) (ref st : String) (now : ℤ) (p0 : PaymentRow)
    (hp : db.payments.find? (fun p => p.payment_intent_id == some ref) = some p0) :
    confirmPayment db ref st now = .ok
      ((if st == "succeeded" then
          { db with
            payments := db.payments.map (fun p =>
              if p.payment_intent_id == some ref then confirmedRow p ref st now
              else p),
            orders := db.orders.map (fun o =>
              if o.oid == p0.order_id then { o with payment_status := "paid" }
              else o) }
        else if st == "payment_failed" then
          { db with
            payments := db.payments.map (fun p =>
              if p.payment_intent_id == some ref then confirmedRow p ref st now
              else p),
            orders := db.orders.map (fun o =>
              if o.oid == p0.order_id then { o with payment_status := "failed" }
              else o) }
        else
          { db with
            payments := db.payments.map (fun p =>
              if p.payment_intent_id == some ref then confirmedRow p ref st now
              else p) }),
       confirmedRow p0 ref st now) := by
  have hfind := find_update_key db.payments
    (fun p => p.payment_intent_id == some ref)
    (fun p => confirmedRow p ref st now) (fun _ => rfl)
  have hpred : (p0.payment_intent_id == some ref) = true := by
    simpa using List.find?_some hp
  unfold confirmPayment
  simp only [hfind, hp, Option.map_some', hpred, if_true]
  simp [confirmedRow]

/-- `confirmPayment` only succeeds when some payments row carries the
intent id. -/
lemma confirmPayment_ok_payment_exists (db : PayDB) (ref st : String) (now : ℤ)
    (r : PayDB × PaymentRow) (h : confirmPayment db ref st now = .ok r) :
    ∃ p0, db.payments.find? (fun p => p.payment_intent_id == some ref) = some p0 := by
  have hfind := find_update_key db.payments
    (fun p => p.payment_intent_id == some ref)
    (fun p => confirmedRow p ref st now) (fun _ => rfl)
  unfold confirmPayment at h
  simp only [hfind] at h
  cases hf : db.payments.find? (fun p => p.payment_intent_id == some ref) with
  | none => simp [hf] at h
  | some p0 => exact ⟨p0, rfl⟩

/-! ## Claim C5 -/

/-- C5, counterexample: the claim says any non-`succeeded` terminal
processor status yields `Order.payment_status = failed`. For the terminal
processor status `canceled`, the payment row is marked failed but the
order's payment_status stays `pending`: the code compares against the
literal `payment_failed`, a value the processor never reports. -/
theorem claim5_cex_canceled_leaves_order_pending :
    confirmPayment payDB "pi_1" "canceled" 5 = .ok (payDBCanceled, canceledPayment)
    ∧ canceledPayment.status = "failed"
    ∧ payDBCanceled.orders.find? (fun o => o.oid == canceledPayment.order_id) =
        some pendingOrder
    ∧ pendingOrder.payment_status = "pending" := by
  refine ⟨by rfl, rfl, by rfl, rfl⟩

/-- C5 (amended): `confirmPayment` looks the payment up by the processor
reference and maps the fetched processor status as follows — `succeeded`
yields Payment.status = succeeded and Order.payment_status = paid; any
other status yields Payment.status = failed, but Order.payment_status is
set to failed only when the processor status is literally
`payment_failed`; for every other non-`succeeded` status (including
terminal ones such as `canceled`) the orders table is left unchanged. -/
theorem claim5_confirm_status_mapping (db : PayDB) (ref st : String) (now : ℤ)
    (p0 : PaymentRow)
    (hp : db.payments.find? (fun p => p.payment_intent_id == some ref) = some p0) :
    ∃ db' pay, confirmPayment db ref st now = .ok (db', pay)
      ∧ pay.order_id = p0.order_id
      ∧ pay.status = (if st = "succeeded" then "succeeded" else "failed")
      ∧ (st = "succeeded" →
          db'.orders.find? (fun o => o.oid == p0.order_id) =
            (db.orders.find? (fun o => o.oid == p0.order_id)).map
              (fun o => { o with payment_status := "paid" }))
      ∧ (st = "payment_failed" →
          db'.orders.find? (fun o => o.oid == p0.order_id) =
            (db.orders.find? (fun o => o.oid == p0.order_id)).map
              (fun o => { o with payment_status := "failed" }))
      ∧ (st ≠ "succeeded" → st ≠ "payment_failed" → db'.orders = db.orders) := by
  refine ⟨_, _, confirmPayment_eq db ref st now p0 hp, by simp [confirmedRow],
    ?_, ?_, ?_, ?_⟩
  · by_cases hs : st = "succeeded" <;> simp [hs, confirmedRow]
  · intro hs
    subst hs
    simp only [beq_self_eq_true, if_true]
    exact find_update_key db.orders (fun o => o.oid == p0.order_id)
      (fun o => { o with payment_status := "paid" }) (fun _ => rfl)
  · intro hf
    subst hf
    simp only [show (("payment_failed" == "succeeded") = false) by decide,
      Bool.false_eq_true, if_false, beq_self_eq_true, if_true]
    exact find_update_key db.orders (fun o => o.oid == p0.order_id)
      (fun o => { o with payment_status := "failed" }) (fun _ => rfl)
  · intro hs hf
    simp [hs, hf]

/-- C5 witness: confirming `pi_1` with processor status `succeeded` on the
pending state maps payment → succeeded and order → paid. -/
theorem claim5_witness :
    payDB.payments.find? (fun p => p.payment_intent_id == some "pi_1") =
      some pendingPayment
    ∧ ∃ db' pay, confirmPayment payDB "pi_1" "succeeded" 1 = .ok (db', pay)
      ∧ pay.order_id = pendingPayment.order_id
      ∧ pay.status = (if "succeeded" = "succeeded" then "succeeded" else "failed")
      ∧ ("succeeded" = "succeeded" →
          db'.orders.find? (fun o => o.oid == pendingPayment.order_id) =
            (payDB.orders.find? (fun o => o.oid == pendingPayment.order_id)).map
              (fun o => { o with payment_status := "paid" }))
      ∧ ("succeeded" = "payment_failed" →
          db'.orders.find? (fun o => o.oid == pendingPayment.order_id) =
            (payDB.orders.find? (fun o => o.oid == pendingPayment.order_id)).map
              (fun o => { o with payment_status := "failed" }))
      ∧ ("succeeded" ≠ "succeeded" → "succeeded" ≠ "payment_failed" →
          db'.orders = payDB.orders) :=
  ⟨by rfl, claim5_confirm_status_mapping payDB "pi_1" "succeeded" 1
    pendingPayment (by rfl)⟩


/-! ## Claim C6 -/

/-- C6, counterexample: the claim says the second `confirm` call leaves
the Payment row's `updated_at` unchanged. Re-confirming `pi_1` rewrites
the row again: `updated_at` moves from 1 to 2 (while both calls do yield
payment succeeded / order paid). -/
theorem claim6_cex_second_confirm_rewrites_updated_at :
    confirmPayment payDB "pi_1" "succeeded" 1 = .ok (payDBAfter1, paidPayment1)
    ∧ confirmPayment payDBAfter1 "pi_1" "succeeded" 2 = .ok (payDBAfter2, paidPayment2)
    ∧ paidPayment1.updated_at = 1
    ∧ paidPayment2.updated_at = 2
    ∧ paidPayment2.updated_at ≠ paidPayment1.updated_at
    ∧ paidPayment1.status = "succeeded" ∧ paidPayment2.status = "succeeded"
    ∧ payDBAfter1.orders = [paidOrder] ∧ payDBAfter2.orders = [paidOrder]
    ∧ paidOrder.payment_status = "paid" := by
  refine ⟨by rfl, by rfl, rfl, rfl, by decide, rfl, rfl, rfl, rfl, rfl⟩

/-- C6 (amended): re-invoking `confirmPayment` with the same reference
after a `succeeded` resolution is idempotent on statuses — the payment
row reads succeeded and the order reads paid after both calls — but the
row is not mutated only once: each call rewrites it, so the second call
returns the first call's row with `updated_at` replaced by its own
timestamp. -/
theorem claim6_confirm_idempotent_status_not_row (db : PayDB) (ref : String)
    (t1 t2 : ℤ) (db1 db2 : PayDB) (p1 p2 : PaymentRow)
    (h1 : confirmPayment db ref "succeeded" t1 = .ok (db1, p1))
    (h2 : confirmPayment db1 ref "succeeded" t2 = .ok (db2, p2)) :
    p1.status = "succeeded"
    ∧ p2 = { p1 with updated_at := t2 }
    ∧ db1.orders.find? (fun o => o.oid == p1.order_id) =
        (db.orders.find? (fun o => o.oid == p1.order_id)).map
          (fun o => { o with payment_status := "paid" })
    ∧ db2.orders.find? (fun o => o.oid == p1.order_id) =
        (db.orders.find? (fun o => o.oid == p1.order_id)).map
          (fun o => { o with payment_status := "paid" }) := by
  obtain ⟨p0, hp⟩ := confirmPayment_ok_payment_exists db ref "succeeded" t1 _ h1
  have hpred : (p0.payment_intent_id == some ref) = true := by
    simpa using List.find?_some hp
  have he1 := confirmPayment_eq db ref "succeeded" t1 p0 hp
  rw [he1] at h1
  simp only [beq_self_eq_true, if_true, Except.ok.injEq, Prod.mk.injEq] at h1
  obtain ⟨hdb1, hp1⟩ := h1
  have hkpay := find_update_key db.payments
    (fun p => p.payment_intent_id == some ref)
    (fun p => confirmedRow p ref "succeeded" t1) (fun _ => rfl)
  have hfind1 : db1.payments.find? (fun p => p.payment_intent_id == some ref)
      = some p1 := by
    rw [← hdb1]
    simp only [hkpay, hp, Option.map_some']
    rw [hp1]
  have he2 := confirmPayment_eq db1 ref "succeeded" t2 p1 hfind1
  rw [he2] at h2
  simp only [beq_self_eq_true, if_true, Except.ok.injEq, Prod.mk.injEq] at h2
  obtain ⟨hdb2, hp2⟩ := h2
  have hstat : p1.status = "succeeded" := by
    rw [← hp1]; simp [confirmedRow]
  have hord : p1.order_id = p0.order_id := by
    rw [← hp1]; rfl
  refine ⟨hstat, ?_, ?_, ?_⟩
  · rw [← hp2, ← hp1]
    simp [confirmedRow]
  · rw [← hdb1, hord]
    simp only
    exact find_update_key db.orders (fun o => o.oid == p0.order_id)
      (fun o => { o with payment_status := "paid" }) (fun _ => rfl)
  · rw [← hdb2]
    simp only
    have hk2 := find_update_key db1.orders (fun o => o.oid == p1.order_id)
      (fun o => { o with payment_status := "paid" }) (fun _ => rfl)
    simp only [hk2]
    rw [← hdb1, hord]
    simp only
    have hk1 := find_update_key db.orders (fun o => o.oid == p0.order_id)
      (fun o => { o with payment_status := "paid" }) (fun _ => rfl)
    simp only [hk1]
    cases db.orders.find? (fun o => o.oid == p0.order_id) <;> rfl

/-- C6 witness: the two concrete confirmations of `pi_1` at times 1 and 2
— same statuses both times, `updated_at` rewritten to 2 by the second. -/
theorem claim6_witness :
    paidPayment1.status = "succeeded"
    ∧ paidPayment2 = { paidPayment1 with updated_at := 2 }
    ∧ payDBAfter1.orders.find? (fun o => o.oid == paidPayment1.order_id) =
        (payDB.orders.find? (fun o => o.oid == paidPayment1.order_id)).map
          (fun o => { o with payment_status := "paid" })
    ∧ payDBAfter2.orders.find? (fun o => o.oid == paidPayment1.order_id) =
        (payDB.orders.find? (fun o => o.oid == paidPayment1.order_id)).map
          (fun o => { o with payment_status := "paid" }) :=
  claim6_confirm_idempotent_status_not_row payDB "pi_1" 1 2 payDBAfter1
    payDBAfter2 paidPayment1 paidPayment2 (by rfl) (by rfl)


/-! ## Claim C7 -/

/-- C7: `validateCoupon`'s rejection rules fire in the fixed order —
validity window first ("Coupon has expired"), then usage limit ("Coupon
usage limit reached"), then minimum purchase — the first failing rule
winning; and a percentage coupon passing all three gets discount
subtotal × discount_value / 100, capped at max_discount_amount when that
cap is set (caps and limits are positive per the creation schema). -/
theorem claim7_validate_coupon_rule_order (c : CouponRow) (amt : ℚ) (now : ℤ)
    (hlim : ∀ l, c.usage_limit = some l → 0 < l)
    (hcap : ∀ m, c.max_discount_amount = some m → 0 < m) :
    ((c.valid_from > now ∨ c.valid_until < now) →
      validateCouponFound c amt now = ⟨false, 0, some "Coupon has expired"⟩)
    ∧ (¬(c.valid_from > now ∨ c.valid_until < now) →
       (∃ l, c.usage_limit = some l ∧ l ≤ c.used_count) →
      validateCouponFound c amt now =
        ⟨false, 0, some "Coupon usage limit reached"⟩)
    ∧ (¬(c.valid_from > now ∨ c.valid_until < now) →
       ¬(∃ l, c.usage_limit = some l ∧ l ≤ c.used_count) →
       amt < c.min_purchase_amount →
      validateCouponFound c amt now =
        ⟨false, 0, some ("Minimum purchase amount is $" ++
          toString c.min_purchase_amount)⟩)
    ∧ (¬(c.valid_from > now ∨ c.valid_until < now) →
       ¬(∃ l, c.usage_limit = some l ∧ l ≤ c.used_count) →
       ¬(amt < c.min_purchase_amount) →
       c.discount_type = "percentage" →
      validateCouponFound c amt now =
        ⟨true, (match c.max_discount_amount with
                | some m => min (amt * c.discount_value / 100) m
                | none => amt * c.discount_value / 100), none⟩) := by
  have hlimBool : ¬(∃ l, c.usage_limit = some l ∧ l ≤ c.used_count) →
      (match c.usage_limit with
       | some l => l != 0 && decide (c.used_count ≥ l)
       | none => false) = false := by
    intro h2
    cases hul : c.usage_limit with
    | none => rfl
    | some l =>
      have : ¬(l ≤ c.used_count) := fun hle => h2 ⟨l, hul, hle⟩
      simp [this]
  refine ⟨?_, ?_, ?_, ?_⟩
  · intro h1
    simp [validateCouponFound, h1]
  · intro h1 h2
    obtain ⟨l, hul, hle⟩ := h2
    have hne : l ≠ 0 := Int.ne_of_gt (hlim l hul)
    simp [validateCouponFound, h1, hul, hle, hne]
  · intro h1 h2 h3
    simp [validateCouponFound, h1, hlimBool h2, h3]
  · intro h1 h2 h3 hty
    have htyb : (c.discount_type == "percentage") = true := by
      simp [hty]
    simp only [validateCouponFound, h1, hlimBool h2, h3, htyb,
      Bool.false_eq_true, if_false, if_true, ite_false, ite_true]
    cases hm : c.max_discount_amount with
    | none => simp
    | some m =>
      have hmpos := hcap m hm
      have hne : m ≠ 0 := ne_of_gt hmpos
      by_cases hgt : amt * c.discount_value / 100 > m
      · simp [hne, hgt, min_eq_right (le_of_lt hgt)]
      · simp [hne, hgt, min_eq_left (not_lt.mp hgt)]

/-- C7 witness: SAVE10 (10%, min 15, cap 15) on subtotal 200 at time 50 —
all rules pass and the 20.00 raw discount is capped to 15. -/
theorem claim7_witness :
    validateCouponFound couponPct 200 50 = ⟨true, 15, none⟩ := by
  have h := (claim7_validate_coupon_rule_order couponPct 200 50
    (by intro l hl; cases hl; decide) (by intro m hm; cases hm; decide)).2.2.2
    (by decide) (by rintro ⟨l, hl, hle⟩; cases hl; revert hle; decide)
    (by norm_num [couponPct]) rfl
  rw [h]
  norm_num [couponPct]

/-! ## Claim C8 -/

/-- C8, counterexample: the claim says a valid fixed coupon's discount is
clamped to the subtotal. BIGOFF (fixed 50) on subtotal 10 is valid with
discount 50 > 10, driving the total negative. -/
theorem claim8_cex_fixed_discount_exceeds_subtotal :
    validateCouponFound couponFixed 10 50 = ⟨true, 50, none⟩
    ∧ (10 : ℚ) < 50
    ∧ (10 : ℚ) - 50 < 0 := by
  refine ⟨by rfl, by norm_num, by norm_num⟩

/-- C8 (amended): for a valid fixed-type coupon (one passing the window,
limit and minimum checks) the discount is `discount_value` verbatim — no
clamp against the subtotal exists, so it can exceed the subtotal and the
order total can go negative. -/
theorem claim8_fixed_discount_verbatim (c : CouponRow) (amt : ℚ) (now : ℤ)
    (h1 : ¬(c.valid_from > now ∨ c.valid_until < now))
    (h2 : ¬(∃ l, c.usage_limit = some l ∧ l ≤ c.used_count))
    (h3 : ¬(amt < c.min_purchase_amount))
    (hty : c.discount_type = "fixed") :
    validateCouponFound c amt now = ⟨true, c.discount_value, none⟩ := by
  have hlimBool : (match c.usage_limit with
      | some l => l != 0 && decide (c.used_count ≥ l)
      | none => false) = false := by
    cases hul : c.usage_limit with
    | none => rfl
    | some l =>
      have : ¬(l ≤ c.used_count) := fun hle => h2 ⟨l, hul, hle⟩
      simp [this]
  have htyb : (c.discount_type == "percentage") = false := by
    simp [hty]
  simp [validateCouponFound, h1, hlimBool, h3, htyb]

/-- C8 witness: BIGOFF applied to subtotal 10 returns its fixed 50
verbatim. -/
theorem claim8_witness :
    validateCouponFound couponFixed 10 50 = ⟨true, couponFixed.discount_value, none⟩ :=
  claim8_fixed_discount_verbatim couponFixed 10 50 (by decide)
    (by rintro ⟨l, hl, -⟩; cases hl) (by norm_num [couponFixed]) rfl

/-! ## Claim C9 -/

/-- C9: the claim says `applyCoupon` re-checks usage_limit at increment
time and never pushes used_count past it. The UPDATE is unconditional: on
a coupon with usage_limit 1 and used_count 1 it increments to 2,
violating used_count ≤ usage_limit. -/
theorem claim9_apply_coupon_breaks_usage_limit :
    couponAtLimit.usage_limit = some 1
    ∧ couponAtLimit.used_count = 1
    ∧ applyCoupon [couponAtLimit] "save" =
        ([{ couponAtLimit with used_count := 2 }],
         some { couponAtLimit with used_count := 2 })
    ∧ ¬((2 : ℤ) ≤ 1) := by
  refine ⟨rfl, rfl, by rfl, by decide⟩

/-! ## Claim C10 -/

/-- C10: `createPaymentIntent` charges and records the caller-supplied
amount. For any existing order that is not `paid` and any positive
amount — the hypotheses say nothing about `o.total_amount` — it charges
`Math.round(amount × 100)` cents and appends a pending payments row
carrying exactly that amount, never comparing it with the order's total. -/
theorem claim10_payment_amount_from_caller (db : PayDB) (orderId : Nat)
    (amount : ℚ) (currency pm intentId : String) (now : ℤ) (o : OrderRow)
    (ho : db.orders.find? (fun x => x.oid == orderId) = some o)
    (hnp : o.payment_status ≠ "paid")
    (_hpos : 0 < amount) :
    createPaymentIntent db orderId amount currency pm intentId now =
      .ok ({ db with
             payments := db.payments ++
               [{ pid := db.nextPaymentId, order_id := orderId, amount := amount,
                  currency := currency, payment_method := pm,
                  payment_intent_id := some intentId, status := "pending",
                  transaction_id := none, updated_at := now }],
             nextPaymentId := db.nextPaymentId + 1 },
           { pid := db.nextPaymentId, order_id := orderId, amount := amount,
             currency := currency, payment_method := pm,
             payment_intent_id := some intentId, status := "pending",
             transaction_id := none, updated_at := now },
           jsRound (amount * 100)) := by
  have hb : (o.payment_status == "paid") = false := by
    simp [hnp]
  unfold createPaymentIntent
  simp [ho, hb]

/-- C10 witness: charging 1.00 against the order whose total is 100.00
succeeds and records amount 1.00 — the mismatch is not detected. -/
theorem claim10_witness :
    createPaymentIntent payDB 1 1 "usd" "card" "pi_9" 7 =
      .ok ({ payDB with
             payments := payDB.payments ++
               [{ pid := payDB.nextPaymentId, order_id := 1, amount := 1,
                  currency := "usd", payment_method := "card",
                  payment_intent_id := some "pi_9", status := "pending",
                  transaction_id := none, updated_at := 7 }],
             nextPaymentId := payDB.nextPaymentId + 1 },
           { pid := payDB.nextPaymentId, order_id := 1, amount := 1,
             currency := "usd", payment_method := "card",
             payment_intent_id := some "pi_9", status := "pending",
             transaction_id := none, updated_at := 7 },
           jsRound (1 * 100))
    ∧ (1 : ℚ) ≠ pendingOrder.total_amount :=
  ⟨claim10_payment_amount_from_caller payDB 1 1 "usd" "card" "pi_9" 7
      pendingOrder (by rfl) (by decide) (by norm_num),
    by norm_num [pendingOrder]⟩

end TwoSquare
